import Mathlib

set_option maxRecDepth 16384

/-!
Shallow embedding of the Blackjack round state machine from
`src/BlackjackGame.js` (the primary draft; `TableLayout.js` is presentation
only).  JS arrays become `List`, JS objects become structures, the React
`useState` fields become fields of `GameState`, and every event handler
becomes a pure function `GameState → GameState` (or `Except JsError
GameState` when the handler can throw).  `Math.random`-driven shuffling is
parameterised by the sequence of chosen indices (`rand : Nat → Nat`).
-/

namespace Blackjack

/-- The thirteen ranks of `generateDeck`'s `ranks` array
(`"A","2",...,"10","J","Q","K"`). -/
inductive Rank where
  | ace | two | three | four | five | six | seven | eight | nine | ten
  | jack | queen | king
deriving DecidableEq

/-- The four suit symbols of `generateDeck`'s `suits` array. -/
inductive Suit where
  | spades | hearts | diamonds | clubs
deriving DecidableEq

/-- A card object `{ rank, suit }`. -/
structure Card where
  rank : Rank
  suit : Suit
deriving DecidableEq

def ranks : List Rank :=
  [.ace, .two, .three, .four, .five, .six, .seven, .eight, .nine, .ten,
   .jack, .queen, .king]

def suits : List Suit := [.spades, .hearts, .diamonds, .clubs]

/-- `generateDeck`: for each suit, for each rank, push `{rank, suit}`. -/
def generateDeck : List Card :=
  (suits.map fun suit => ranks.map fun rank => Card.mk rank suit).flatten

/-- `generateShoe(deckCount)`: repeatedly `shoe = shoe.concat(generateDeck())`. -/
def generateShoe (deckCount : Nat) : List Card :=
  (List.range deckCount).foldl (fun shoe _ => shoe ++ generateDeck) []

/-- One Fisher-Yates swap `[deck[i], deck[j]] = [deck[j], deck[i]]`. -/
def swapAt (l : List Card) (i j : Nat) : List Card :=
  match l[i]?, l[j]? with
  | some a, some b => (l.set i b).set j a
  | _, _ => l

/-- The `for (let i = deck.length - 1; i > 0; i--)` loop of `shuffleDeck`,
with `rand i` standing for `Math.floor(Math.random() * (i + 1))`. -/
def shuffleFrom (rand : Nat → Nat) : Nat → List Card → List Card
  | 0, d => d
  | i + 1, d => shuffleFrom rand i (swapAt d (i + 1) (rand (i + 1)))

/-- `shuffleDeck`: in-place Fisher-Yates shuffle, modelled functionally with
the random draws supplied by `rand`. -/
def shuffleDeck (d : List Card) (rand : Nat → Nat) : List Card :=
  shuffleFrom rand (d.length - 1) d

/-- `parseInt(card.rank, 10)` on the numeric rank strings `"2"`..`"10"`.
In `calculateScore` this branch is only reached for `"2"`..`"9"`; the
remaining constructors (whose JS parse would be `NaN` or be shadowed by an
earlier branch) are given value 0 and are unreachable there. -/
def faceValue : Rank → Nat
  | .two => 2
  | .three => 3
  | .four => 4
  | .five => 5
  | .six => 6
  | .seven => 7
  | .eight => 8
  | .nine => 9
  | .ten => 10
  | _ => 0

/-- The `while (score > 21 && aces > 0) { score -= 10; aces--; }` loop of
`calculateScore`, structurally recursive on the ace count. -/
def reduceAces : Nat → Nat → Nat
  | score, 0 => score
  | score, aces + 1 => if 21 < score then reduceAces (score - 10) aces else score

/-- The `for (let card of cards)` accumulation of `calculateScore`:
the pair is the running `(score, aces)`. -/
def scoreStep (acc : Nat × Nat) (card : Card) : Nat × Nat :=
  if card.rank = .ace then (acc.1 + 11, acc.2 + 1)
  else if card.rank = .king ∨ card.rank = .queen ∨ card.rank = .jack ∨
      card.rank = .ten then (acc.1 + 10, acc.2)
  else (acc.1 + faceValue card.rank, acc.2)

/-- `calculateScore(cards)` from `BlackjackGame.js` lines 51-73. -/
def calculateScore (cards : List Card) : Nat :=
  let acc := cards.foldl scoreStep (0, 0)
  reduceAces acc.1 acc.2

/-! Spec-side scoring, written from the words of §4.1 of the spec
("sum card values where J/Q/K/10 = 10, numeric ranks = face value,
Ace = 11 initially", then the ace-reduction loop), to be compared with the
source-side `calculateScore`. -/

/-- Card value as the spec words it: J/Q/K/10 worth 10, numeric ranks at
face value, Ace worth 11. -/
def specCardValue : Rank → Nat
  | .ace => 11
  | .king => 10
  | .queen => 10
  | .jack => 10
  | .ten => 10
  | .two => 2
  | .three => 3
  | .four => 4
  | .five => 5
  | .six => 6
  | .seven => 7
  | .eight => 8
  | .nine => 9

/-- Spec-side score: total the card values, then while the total exceeds 21
and an Ace is still counted as 11, reduce one such Ace by 10. -/
def specScore (hand : List Card) : Nat :=
  reduceAces ((hand.map fun c => specCardValue c.rank).sum)
    (hand.countP fun c => c.rank = .ace)

lemma scoreStep_eq (acc : Nat × Nat) (c : Card) :
    scoreStep acc c =
      (acc.1 + specCardValue c.rank,
       acc.2 + if c.rank = .ace then 1 else 0) := by
  rcases c with ⟨r, s⟩
  cases r <;> simp [scoreStep, specCardValue, faceValue]

lemma foldl_scoreStep (cards : List Card) : ∀ acc : Nat × Nat,
    cards.foldl scoreStep acc =
      (acc.1 + (cards.map fun c => specCardValue c.rank).sum,
       acc.2 + (cards.countP fun c => c.rank = .ace)) := by
  induction cards with
  | nil => intro acc; simp
  | cons c cs ih =>
      intro acc
      simp only [List.foldl_cons, ih, scoreStep_eq, List.map_cons,
        List.sum_cons, List.countP_cons, Prod.mk.injEq]
      refine ⟨by omega, ?_⟩
      by_cases h : c.rank = Rank.ace
      · simp [h]; omega
      · simp [h]

lemma calculateScore_eq_specScore (hand : List Card) :
    calculateScore hand = specScore hand := by
  simp [calculateScore, specScore, foldl_scoreStep]

/-! The round state machine.  The `useState` fields of the `BlackjackGame`
component form the state; each event handler reads the render-time snapshot
(closure) and the final state is what React's batched `set*` calls produce:
a value-based `setX(v)` overwrites any earlier pending value for `X`, and a
functional `setX(prev => ...)` applies to the pending value. -/

/-- A player object as built by `initializeGame`:
`{ id, cards, bet, score, actions }`. -/
structure Player where
  id : String
  cards : List Card
  bet : Int
  score : Nat
  actions : List String
deriving DecidableEq

/-- The dealer object `{ id, cards, score }`. -/
structure Dealer where
  id : String
  cards : List Card
  score : Nat
deriving DecidableEq

/-- The component state: `deck`, `phase` (1=betting, 2=dealing,
3=hit/stand), `players`, `dealer`, `bettingIndex`, `dealIndex`,
`isDealing`, `currentPlayerIndex`. -/
structure GameState where
  deck : List Card
  phase : Nat
  players : List Player
  dealer : Dealer
  bettingIndex : Nat
  dealIndex : Nat
  isDealing : Bool
  currentPlayerIndex : Nat
deriving DecidableEq

/-- A JS exception escaping a handler.  The source never constructs a
`ShoeEmptyError`; `shoeEmpty` is the spec's §7 error kind, included only so
that statements about it can be written.  `typeError` is the uncaught
`TypeError` thrown when `calculateScore` dereferences `.rank` of the
`undefined` value produced by `pop()` on an empty deck. -/
inductive JsError where
  | typeError
  | shoeEmpty
deriving DecidableEq

instance {ε α : Type} [DecidableEq ε] [DecidableEq α] :
    DecidableEq (Except ε α) := fun x y =>
  match x, y with
  | .ok a, .ok b =>
      if h : a = b then .isTrue (by rw [h]) else .isFalse (by simp [h])
  | .error a, .error b =>
      if h : a = b then .isTrue (by rw [h]) else .isFalse (by simp [h])
  | .ok _, .error _ => .isFalse (by simp)
  | .error _, .ok _ => .isFalse (by simp)

/-- An entry of the `dealOrder` array: a player index or `"dealer"`. -/
inductive DealTarget where
  | seat (i : Nat)
  | dealer
deriving DecidableEq

/-- `dealOrder` from `BlackjackGame.js` lines 41-45: one card to each of
the 8 players, one to the dealer, then one more to each player. -/
def dealOrder : List DealTarget :=
  [.seat 0, .seat 1, .seat 2, .seat 3, .seat 4, .seat 5, .seat 6, .seat 7,
   .dealer,
   .seat 0, .seat 1, .seat 2, .seat 3, .seat 4, .seat 5, .seat 6, .seat 7]

/-- Digit run at the front of the character list, as `parseInt` reads it;
`none` when there is no digit (JS `NaN`). -/
def leadingDigits (cs : List Char) : Option Nat :=
  let ds := cs.takeWhile Char.isDigit
  if ds.isEmpty then none
  else some (ds.foldl (fun a c => a * 10 + (c.toNat - 48)) 0)

/-- `parseInt(betAmount, 10) || 0`: skip leading whitespace, optional sign,
maximal digit run; `NaN` (and `0` itself, being falsy) collapse to 0. -/
def jsParseIntOr0 (str : String) : Int :=
  let cs := str.toList.dropWhile Char.isWhitespace
  match cs with
  | '-' :: rest =>
      match leadingDigits rest with
      | some n => -(n : Int)
      | none => 0
  | '+' :: rest =>
      match leadingDigits rest with
      | some n => (n : Int)
      | none => 0
  | _ =>
      match leadingDigits cs with
      | some n => (n : Int)
      | none => 0

/-- The 8 players created by `initializeGame`. -/
def initialPlayers : List Player :=
  (List.range 8).map fun i =>
    { id := "player-" ++ toString (i + 1), cards := [], bet := 0, score := 0,
      actions := [] }

/-- The state after `initializeGame`: empty deck (no shoe is built here),
phase 1, cursors 0, cleared players and dealer. -/
def initialState : GameState :=
  { deck := [], phase := 1, players := initialPlayers,
    dealer := { id := "dealer-1", cards := [], score := 0 },
    bettingIndex := 0, dealIndex := 0, isDealing := false,
    currentPlayerIndex := 0 }

/-- `handleRestart`: clears the dealing timer and calls `initializeGame`,
which rebuilds the whole state from scratch. -/
def handleRestart (_s : GameState) : GameState := initialState

/-- `goToPhase2`: builds and shuffles a fresh 6-deck shoe, clears every
seat's cards/score/actions and the dealer's cards/score (bets are kept),
and sets phase 2.  It reads `players`/`dealer` from the render snapshot it
was called in. -/
def goToPhase2 (rand : Nat → Nat) (s : GameState) : GameState :=
  { s with
    deck := shuffleDeck (generateShoe 6) rand,
    players := s.players.map fun p =>
      { p with cards := [], score := 0, actions := [] },
    dealer := { s.dealer with cards := [], score := 0 },
    phase := 2 }

/-- `handleSubmitBet(playerId, betAmount)`.  No cursor check is performed:
any `playerId` found among the players has its bet stored (coerced to 5
when the parsed amount is not positive) and `bettingIndex` advances.  When
the snapshot `bettingIndex` is already ≥ 7 the handler calls `goToPhase2`;
in that case `goToPhase2`'s value-based `setPlayers(resetPlayers)` —
computed from the stale snapshot `players` — supersedes the
`setPlayers(newPlayers)` issued just before, so the just-submitted bet is
discarded, while the functional `setBettingIndex(prev => prev + 1)` still
applies. -/
def handleSubmitBet (rand : Nat → Nat) (playerId betAmount : String)
    (s : GameState) : GameState :=
  match s.players.findIdx? (fun p => p.id == playerId) with
  | none => s
  | some pIndex =>
      let numericBet := jsParseIntOr0 betAmount
      let coercedBet : Int := if 0 < numericBet then numericBet else 5
      let newPlayers :=
        match s.players[pIndex]? with
        | some p => s.players.set pIndex { p with bet := coercedBet }
        | none => s.players
      if 7 ≤ s.bettingIndex then
        goToPhase2 rand { s with bettingIndex := s.bettingIndex + 1 }
      else
        { s with players := newPlayers, bettingIndex := s.bettingIndex + 1 }

/-- `dealNextCard`: past the end of `dealOrder` it stops dealing and moves
to phase 3; otherwise it pops the top of the deck and routes the card to
the seat or dealer at `dealIndex`, recomputing that hand's score.  Popping
an empty deck yields `undefined`, and scoring the hand containing it
throws an uncaught `TypeError` inside the state updater. -/
def dealNextCard (s : GameState) : Except JsError GameState :=
  if h : s.dealIndex < dealOrder.length then
    match s.deck.getLast? with
    | none => .error .typeError
    | some nextCard =>
        let newDeck := s.deck.dropLast
        match dealOrder.get ⟨s.dealIndex, h⟩ with
        | .seat i =>
            let newPlayers :=
              match s.players[i]? with
              | some p =>
                  s.players.set i
                    { p with
                      cards := p.cards ++ [nextCard],
                      score := calculateScore (p.cards ++ [nextCard]) }
              | none => s.players
            .ok { s with
                  deck := newDeck, players := newPlayers,
                  dealIndex := s.dealIndex + 1 }
        | .dealer =>
            .ok { s with
                  deck := newDeck,
                  dealer := { s.dealer with
                    cards := s.dealer.cards ++ [nextCard],
                    score := calculateScore (s.dealer.cards ++ [nextCard]) },
                  dealIndex := s.dealIndex + 1 }
  else
    .ok { s with isDealing := false, phase := 3 }

/-- `handlePlayerHit(playerId)`.  The `pIndex !== currentPlayerIndex` guard
is commented out in the source, so any found player may hit: one card is
popped, appended, the score recomputed, `"hit"` logged; on a score over 21
`"bust"` is also logged and the cursor advances, otherwise the cursor is
untouched.  On an empty deck the popped `undefined` card makes
`calculateScore` throw. -/
def handlePlayerHit (playerId : String) (s : GameState) :
    Except JsError GameState :=
  match s.players.findIdx? (fun p => p.id == playerId) with
  | none => .ok s
  | some pIndex =>
      match s.players[pIndex]? with
      | none => .ok s
      | some p =>
          match s.deck.getLast? with
          | none => .error .typeError
          | some nextCard =>
              let newCards := p.cards ++ [nextCard]
              let newScore := calculateScore newCards
              let newActions := p.actions ++ ["hit"]
              if 21 < newScore then
                .ok { s with
                  deck := s.deck.dropLast,
                  players := s.players.set pIndex
                    { p with
                      cards := newCards, score := newScore,
                      actions := newActions ++ ["bust"] },
                  currentPlayerIndex := s.currentPlayerIndex + 1 }
              else
                .ok { s with
                  deck := s.deck.dropLast,
                  players := s.players.set pIndex
                    { p with
                      cards := newCards, score := newScore,
                      actions := newActions } }

/-- `handlePlayerStand(playerId)`: logs `"stand"` for any found player
(the cursor guard is commented out) and advances the cursor. -/
def handlePlayerStand (playerId : String) (s : GameState) : GameState :=
  match s.players.findIdx? (fun p => p.id == playerId) with
  | none => s
  | some pIndex =>
      match s.players[pIndex]? with
      | none => s
      | some p =>
          { s with
            players := s.players.set pIndex
              { p with actions := p.actions ++ ["stand"] },
            currentPlayerIndex := s.currentPlayerIndex + 1 }

/-- `handlePlayerDouble(playerId)`: doubles the bet, pops one card,
appends it, recomputes the score, logs `"hit"` (and `"bust"` over 21), and
always advances the cursor.  Same empty-deck behaviour as hit. -/
def handlePlayerDouble (playerId : String) (s : GameState) :
    Except JsError GameState :=
  match s.players.findIdx? (fun p => p.id == playerId) with
  | none => .ok s
  | some pIndex =>
      match s.players[pIndex]? with
      | none => .ok s
      | some p =>
          match s.deck.getLast? with
          | none => .error .typeError
          | some nextCard =>
              let newCards := p.cards ++ [nextCard]
              let newScore := calculateScore newCards
              let newActions := p.actions ++ ["hit"]
              let finalActions :=
                if 21 < newScore then newActions ++ ["bust"] else newActions
              .ok { s with
                deck := s.deck.dropLast,
                players := s.players.set pIndex
                  { p with
                    bet := p.bet * 2, cards := newCards,
                    score := newScore, actions := finalActions },
                currentPlayerIndex := s.currentPlayerIndex + 1 }

/-- `n` ticks of the dealing timer, each running `dealNextCard`. -/
def iterateDeal : Nat → GameState → Except JsError GameState
  | 0, s => .ok s
  | n + 1, s => (iterateDeal n s).bind dealNextCard

/-! Characterisation lemmas for the handlers, shared by the claim
theorems below. -/

lemma findIdx?_id_none {s : GameState} {pid : String}
    (h : ∀ p ∈ s.players, p.id ≠ pid) :
    s.players.findIdx? (fun q => q.id == pid) = none := by
  rw [List.findIdx?_eq_none_iff]
  intro x hx
  simpa using h x hx

lemma handleSubmitBet_not_found {s : GameState} {pid : String}
    (rand : Nat → Nat) (amt : String)
    (h : s.players.findIdx? (fun q => q.id == pid) = none) :
    handleSubmitBet rand pid amt s = s := by
  simp [handleSubmitBet, h]

lemma handlePlayerHit_not_found {s : GameState} {pid : String}
    (h : s.players.findIdx? (fun q => q.id == pid) = none) :
    handlePlayerHit pid s = .ok s := by
  simp [handlePlayerHit, h]

lemma handlePlayerStand_not_found {s : GameState} {pid : String}
    (h : s.players.findIdx? (fun q => q.id == pid) = none) :
    handlePlayerStand pid s = s := by
  simp [handlePlayerStand, h]

lemma handlePlayerDouble_not_found {s : GameState} {pid : String}
    (h : s.players.findIdx? (fun q => q.id == pid) = none) :
    handlePlayerDouble pid s = .ok s := by
  simp [handlePlayerDouble, h]

/-- `handleSubmitBet` with a found player and the betting cursor still
below 7: the bet is stored and the cursor advances, nothing else moves. -/
lemma handleSubmitBet_found_lt {s : GameState} {pid : String} {i : Nat}
    {p : Player} (rand : Nat → Nat) (amt : String)
    (hfind : s.players.findIdx? (fun q => q.id == pid) = some i)
    (hp : s.players[i]? = some p)
    (hlt : s.bettingIndex < 7) :
    handleSubmitBet rand pid amt s =
      { s with
        players := s.players.set i
          { p with
            bet := if 0 < jsParseIntOr0 amt then jsParseIntOr0 amt else 5 },
        bettingIndex := s.bettingIndex + 1 } := by
  simp only [handleSubmitBet, hfind, hp]
  rw [if_neg (by omega)]

/-- `handleSubmitBet` with a found player when the snapshot cursor is
already ≥ 7: the transition to phase 2 runs, and `goToPhase2`'s
`setPlayers` (computed from the stale snapshot) discards the bet that was
just stored. -/
lemma handleSubmitBet_found_ge {s : GameState} {pid : String} {i : Nat}
    (rand : Nat → Nat) (amt : String)
    (hfind : s.players.findIdx? (fun q => q.id == pid) = some i)
    (hge : 7 ≤ s.bettingIndex) :
    handleSubmitBet rand pid amt s =
      { s with
        deck := shuffleDeck (generateShoe 6) rand,
        players := s.players.map fun p =>
          { p with cards := [], score := 0, actions := [] },
        dealer := { s.dealer with cards := [], score := 0 },
        phase := 2,
        bettingIndex := s.bettingIndex + 1 } := by
  simp only [handleSubmitBet, hfind]
  rw [if_pos hge]
  rfl

/-- `handlePlayerHit` with a found player and a nonempty deck. -/
lemma handlePlayerHit_found {s : GameState} {pid : String} {i : Nat}
    {p : Player} {c : Card}
    (hfind : s.players.findIdx? (fun q => q.id == pid) = some i)
    (hp : s.players[i]? = some p)
    (hc : s.deck.getLast? = some c) :
    handlePlayerHit pid s =
      .ok { s with
        deck := s.deck.dropLast,
        players := s.players.set i
          { p with
            cards := p.cards ++ [c],
            score := calculateScore (p.cards ++ [c]),
            actions :=
              if 21 < calculateScore (p.cards ++ [c])
              then (p.actions ++ ["hit"]) ++ ["bust"]
              else p.actions ++ ["hit"] },
        currentPlayerIndex :=
          if 21 < calculateScore (p.cards ++ [c])
          then s.currentPlayerIndex + 1
          else s.currentPlayerIndex } := by
  simp only [handlePlayerHit, hfind, hp, hc]
  by_cases hb : 21 < calculateScore (p.cards ++ [c]) <;> simp [hb]

/-- `handlePlayerHit` on an empty deck: `deck.pop()` yields `undefined`
and `calculateScore` throws an uncaught `TypeError`. -/
lemma handlePlayerHit_empty {s : GameState} {pid : String} {i : Nat}
    {p : Player}
    (hfind : s.players.findIdx? (fun q => q.id == pid) = some i)
    (hp : s.players[i]? = some p)
    (hd : s.deck = []) :
    handlePlayerHit pid s = .error .typeError := by
  simp [handlePlayerHit, hfind, hp, hd]

/-- `handlePlayerStand` with a found player. -/
lemma handlePlayerStand_found {s : GameState} {pid : String} {i : Nat}
    {p : Player}
    (hfind : s.players.findIdx? (fun q => q.id == pid) = some i)
    (hp : s.players[i]? = some p) :
    handlePlayerStand pid s =
      { s with
        players := s.players.set i
          { p with actions := p.actions ++ ["stand"] },
        currentPlayerIndex := s.currentPlayerIndex + 1 } := by
  simp [handlePlayerStand, hfind, hp]

/-- `handlePlayerDouble` with a found player and a nonempty deck. -/
lemma handlePlayerDouble_found {s : GameState} {pid : String} {i : Nat}
    {p : Player} {c : Card}
    (hfind : s.players.findIdx? (fun q => q.id == pid) = some i)
    (hp : s.players[i]? = some p)
    (hc : s.deck.getLast? = some c) :
    handlePlayerDouble pid s =
      .ok { s with
        deck := s.deck.dropLast,
        players := s.players.set i
          { p with
            bet := p.bet * 2,
            cards := p.cards ++ [c],
            score := calculateScore (p.cards ++ [c]),
            actions :=
              if 21 < calculateScore (p.cards ++ [c])
              then (p.actions ++ ["hit"]) ++ ["bust"]
              else p.actions ++ ["hit"] },
        currentPlayerIndex := s.currentPlayerIndex + 1 } := by
  simp only [handlePlayerDouble, hfind, hp, hc]

/-- `handlePlayerDouble` on an empty deck throws, like hit. -/
lemma handlePlayerDouble_empty {s : GameState} {pid : String} {i : Nat}
    {p : Player}
    (hfind : s.players.findIdx? (fun q => q.id == pid) = some i)
    (hp : s.players[i]? = some p)
    (hd : s.deck = []) :
    handlePlayerDouble pid s = .error .typeError := by
  simp [handlePlayerDouble, hfind, hp, hd]

/-- `dealNextCard` past the end of `dealOrder`: stop dealing, phase 3. -/
lemma dealNextCard_finish {s : GameState}
    (h : ¬ s.dealIndex < dealOrder.length) :
    dealNextCard s = .ok { s with isDealing := false, phase := 3 } := by
  unfold dealNextCard
  rw [dif_neg h]

/-- `dealNextCard` mid-order on an empty deck throws. -/
lemma dealNextCard_empty {s : GameState}
    (h : s.dealIndex < dealOrder.length) (hd : s.deck = []) :
    dealNextCard s = .error .typeError := by
  unfold dealNextCard
  rw [dif_pos h]
  simp [hd]

/-! Bookkeeping for the initial deal (claim C7). -/

/-- Number of cards in seat `j`'s hand (0 for an absent seat). -/
def handCount (s : GameState) (j : Nat) : Nat :=
  ((s.players[j]?).map fun p => p.cards.length).getD 0

/-- Every seat index appearing in `dealOrder` is below 8. -/
def targetOk : DealTarget → Bool
  | .seat i => i < 8
  | .dealer => true

lemma dealOrder_targetOk : ∀ x : Fin dealOrder.length,
    targetOk (dealOrder.get x) = true := by decide

lemma dealOrder_seat_lt {k : Nat} (h : k < dealOrder.length) {i : Nat}
    (hget : dealOrder.get ⟨k, h⟩ = .seat i) : i < 8 := by
  have := dealOrder_targetOk ⟨k, h⟩
  rw [hget] at this
  simpa [targetOk] using this

/-- One mid-order tick of `dealNextCard` on a nonempty deck: the deck
shrinks by one, the deal cursor advances by one, and exactly the hand
designated by the current `dealOrder` entry grows by one card; everything
else is untouched. -/
lemma dealNextCard_step {s : GameState}
    (h : s.dealIndex < dealOrder.length) (hd : s.deck ≠ [])
    (hlen : s.players.length = 8) :
    ∃ s', dealNextCard s = .ok s' ∧
      s'.dealIndex = s.dealIndex + 1 ∧
      s'.deck.length + 1 = s.deck.length ∧
      s'.phase = s.phase ∧
      s'.currentPlayerIndex = s.currentPlayerIndex ∧
      s'.isDealing = s.isDealing ∧
      s'.bettingIndex = s.bettingIndex ∧
      s'.players.length = 8 ∧
      (∀ j, j < 8 → handCount s' j = handCount s j +
        (if dealOrder.get ⟨s.dealIndex, h⟩ = .seat j then 1 else 0)) ∧
      s'.dealer.cards.length = s.dealer.cards.length +
        (if dealOrder.get ⟨s.dealIndex, h⟩ = .dealer then 1 else 0) := by
  obtain ⟨c, hc⟩ : ∃ c, s.deck.getLast? = some c := by
    cases hgl : s.deck.getLast? with
    | none => exact absurd (List.getLast?_eq_none_iff.mp hgl) hd
    | some c => exact ⟨c, rfl⟩
  have hdlen : s.deck.dropLast.length + 1 = s.deck.length := by
    have h0 : 0 < s.deck.length := List.length_pos.mpr hd
    have := s.deck.length_dropLast
    omega
  cases hget : dealOrder.get ⟨s.dealIndex, h⟩ with
  | seat i =>
      have hi8 : i < 8 := dealOrder_seat_lt h hget
      have hilen : i < s.players.length := by omega
      have hpi : s.players[i]? = some s.players[i] :=
        List.getElem?_eq_getElem hilen
      have hstep : dealNextCard s =
          .ok { s with
                deck := s.deck.dropLast,
                players := s.players.set i
                  { s.players[i] with
                    cards := s.players[i].cards ++ [c],
                    score := calculateScore (s.players[i].cards ++ [c]) },
                dealIndex := s.dealIndex + 1 } := by
        unfold dealNextCard
        rw [dif_pos h, hc, hget]
        simp [hpi]
      refine ⟨_, hstep, rfl, hdlen, rfl, rfl, rfl, rfl,
        by simp [hlen], ?_, by simp [hget]⟩
      intro j hj
      by_cases hij : i = j
      · subst hij
        simp [handCount, List.getElem?_set, hilen, hpi]
      · simp [handCount, List.getElem?_set, hij, Ne.symm hij]
  | dealer =>
      have hstep : dealNextCard s =
          .ok { s with
                deck := s.deck.dropLast,
                dealer := { s.dealer with
                  cards := s.dealer.cards ++ [c],
                  score := calculateScore (s.dealer.cards ++ [c]) },
                dealIndex := s.dealIndex + 1 } := by
        unfold dealNextCard
        rw [dif_pos h, hc, hget]
      refine ⟨_, hstep, rfl, hdlen, rfl, rfl, rfl, rfl,
        by simpa using hlen, ?_, by simp⟩
      intro j hj
      simp [handCount]

lemma count_take_succ {l : List DealTarget} {k : Nat} (hk : k < l.length)
    (t : DealTarget) :
    (l.take (k + 1)).count t =
      (l.take k).count t + (if l.get ⟨k, hk⟩ = t then 1 else 0) := by
  rw [List.take_succ, List.getElem?_eq_getElem hk]
  simp only [Option.toList_some, List.count_append, List.count_singleton,
    List.get_eq_getElem, beq_iff_eq]

/-- Invariant of the dealing loop: after `k ≤ 17` ticks from deal cursor
0 with a big enough deck, each hand has grown by exactly the number of
times its seat occurs in the first `k` entries of `dealOrder`, the deck
has shrunk by `k`, and phase, cursors and flags are untouched. -/
lemma iterateDeal_inv (k : Nat) (hk : k ≤ dealOrder.length) :
    ∀ s : GameState, s.dealIndex = 0 → s.players.length = 8 →
    dealOrder.length ≤ s.deck.length →
    ∃ s', iterateDeal k s = .ok s' ∧
      s'.dealIndex = k ∧
      s'.deck.length + k = s.deck.length ∧
      s'.phase = s.phase ∧
      s'.currentPlayerIndex = s.currentPlayerIndex ∧
      s'.isDealing = s.isDealing ∧
      s'.players.length = 8 ∧
      (∀ j, j < 8 → handCount s' j =
        handCount s j + (dealOrder.take k).count (.seat j)) ∧
      s'.dealer.cards.length =
        s.dealer.cards.length + (dealOrder.take k).count .dealer := by
  induction k with
  | zero =>
      intro s h0 hlen _
      exact ⟨s, rfl, h0, rfl, rfl, rfl, rfl, hlen, by simp, by simp⟩
  | succ k ih =>
      intro s h0 hlen hdeck
      obtain ⟨t, ht, htdi, htdeck, htphase, htcpi, htdeal, htlen,
        hthands, htdealer⟩ := ih (Nat.le_of_succ_le hk) s h0 hlen hdeck
      have hklt : k < dealOrder.length := hk
      have hdi : t.dealIndex < dealOrder.length := by omega
      have htne : t.deck ≠ [] := by
        intro hnil
        rw [hnil] at htdeck
        simp at htdeck
        omega
      obtain ⟨s', hs', h1, h2, h3, h4, h5, hbet, h6, h7, h8⟩ :=
        dealNextCard_step hdi htne htlen
      have hrun : iterateDeal (k + 1) s = .ok s' := by
        rw [iterateDeal, ht]
        exact hs'
      have hgetk : dealOrder.get ⟨t.dealIndex, hdi⟩ = dealOrder.get ⟨k, hklt⟩ := by
        congr 1
        exact Fin.ext htdi
      refine ⟨s', hrun, by omega, by omega, by rw [h3, htphase],
        by rw [h4, htcpi], by rw [h5, htdeal], h6, ?_, ?_⟩
      · intro j hj
        rw [h7 j hj, hgetk, hthands j hj, count_take_succ hklt]
        omega
      · rw [h8, hgetk, htdealer, count_take_succ hklt]
        omega

/-- Fisher-Yates swapping preserves the length. -/
lemma swapAt_length (l : List Card) (i j : Nat) :
    (swapAt l i j).length = l.length := by
  unfold swapAt
  cases h1 : l[i]? <;> cases h2 : l[j]? <;> simp

lemma shuffleFrom_length (rand : Nat → Nat) :
    ∀ (n : Nat) (d : List Card), (shuffleFrom rand n d).length = d.length := by
  intro n
  induction n with
  | zero => intro d; rfl
  | succ n ih => intro d; rw [shuffleFrom, ih, swapAt_length]

/-- Shuffling preserves the length of the shoe. -/
lemma shuffleDeck_length (d : List Card) (rand : Nat → Nat) :
    (shuffleDeck d rand).length = d.length :=
  shuffleFrom_length rand (d.length - 1) d

/-! Concrete states used by witnesses and counterexamples. -/

/-- A fixed random-index sequence (every Fisher-Yates draw picks slot 0). -/
def rand0 : Nat → Nat := fun _ => 0

def exCard : Card := ⟨.five, .spades⟩

def exPlayer1 : Player :=
  { id := "player-1", cards := [], bet := 0, score := 0, actions := [] }

def exPlayer3 : Player :=
  { id := "player-3", cards := [], bet := 0, score := 0, actions := [] }

def exPlayer8 : Player :=
  { id := "player-8", cards := [], bet := 0, score := 0, actions := [] }

/-- A decisions-phase state with one card left in the shoe. -/
def exDecisionState : GameState :=
  { initialState with phase := 3, deck := [exCard] }

/-- A decisions-phase state with an exhausted shoe. -/
def exEmptyDeckState : GameState :=
  { initialState with phase := 3 }

/-- A betting-phase state in which seven bets have already been taken. -/
def exBetFullState : GameState :=
  { initialState with bettingIndex := 7 }

/-- A betting-phase state, cursor at seat 0, one card in the deck. -/
def exOffCursorState : GameState :=
  { initialState with deck := [exCard] }

/-- A dealing-phase state with a full single deck as the shoe. -/
def exDealState : GameState :=
  { initialState with phase := 2, deck := generateDeck }

/-- The state after all eight seats submit a "10" bet in seat order. -/
def submit8 : GameState :=
  (["player-1", "player-2", "player-3", "player-4", "player-5", "player-6",
    "player-7", "player-8"]).foldl
    (fun s pid => handleSubmitBet rand0 pid "10" s) initialState

/-! Claim theorems. -/

/-- C6: `score(hand)` sums card values with J/Q/K/10 worth 10, numeric
ranks at face value and Ace worth 11, then while the total exceeds 21 and
at least one Ace is still counted as 11 it reduces one such Ace's
contribution by 10, repeating; the empty hand scores 0; and on the spec's
example hands it gives {A,K} ↦ 21, {A,A} ↦ 12, {A,A,9} ↦ 21,
{K,Q,5} ↦ 25.  The source's `calculateScore` agrees with the spec-worded
`specScore` on every hand. -/
theorem claim_C6_score_rule :
    (∀ hand : List Card, calculateScore hand = specScore hand) ∧
    calculateScore [] = 0 ∧
    calculateScore [⟨.ace, .spades⟩, ⟨.king, .hearts⟩] = 21 ∧
    calculateScore [⟨.ace, .spades⟩, ⟨.ace, .hearts⟩] = 12 ∧
    calculateScore [⟨.ace, .spades⟩, ⟨.ace, .hearts⟩, ⟨.nine, .clubs⟩] = 21 ∧
    calculateScore [⟨.king, .spades⟩, ⟨.queen, .hearts⟩, ⟨.five, .clubs⟩] = 25 :=
  ⟨calculateScore_eq_specScore, by decide, by decide, by decide, by decide,
   by decide⟩

/-- C9: `score` is invariant under permutation of the hand: for every two
hands that are permutations of each other, `calculateScore` returns the
same value. -/
theorem claim_C9_score_perm_invariant (h₁ h₂ : List Card)
    (hperm : h₁.Perm h₂) :
    calculateScore h₁ = calculateScore h₂ := by
  rw [calculateScore_eq_specScore, calculateScore_eq_specScore]
  unfold specScore
  rw [hperm.countP_eq, (hperm.map fun c => specCardValue c.rank).sum_eq]

/-- Witness for C9 at the concrete hands {A♠, K♥} and {K♥, A♠}. -/
theorem claim_C9_witness :
    ([⟨Rank.ace, Suit.spades⟩, ⟨Rank.king, Suit.hearts⟩] : List Card).Perm
      [⟨Rank.king, Suit.hearts⟩, ⟨Rank.ace, Suit.spades⟩] ∧
    calculateScore [⟨Rank.ace, Suit.spades⟩, ⟨Rank.king, Suit.hearts⟩] =
      calculateScore [⟨Rank.king, Suit.hearts⟩, ⟨Rank.ace, Suit.spades⟩] :=
  ⟨by decide,
   claim_C9_score_perm_invariant
     [⟨Rank.ace, Suit.spades⟩, ⟨Rank.king, Suit.hearts⟩]
     [⟨Rank.king, Suit.hearts⟩, ⟨Rank.ace, Suit.spades⟩] (by decide)⟩

/-- C2: in the Decisions phase a hit by the seat at the cursor pops one
card off the shoe, appends it to that seat's hand, recomputes the score,
and appends `"hit"` to the actionLog; when the new score exceeds 21 the
bust is recorded (the source has no separate status field — Busted is
recorded as the `"bust"` actionLog tag) and the cursor advances by exactly
one, otherwise the cursor is unchanged so the same seat may hit again. -/
theorem claim_C2_hit_at_cursor (s : GameState) (pid : String) (i : Nat)
    (p : Player) (c : Card)
    (_hphase : s.phase = 3)
    (hfind : s.players.findIdx? (fun q => q.id == pid) = some i)
    (_hcursor : i = s.currentPlayerIndex)
    (hp : s.players[i]? = some p)
    (hc : s.deck.getLast? = some c) :
    handlePlayerHit pid s =
      .ok { s with
            deck := s.deck.dropLast,
            players := s.players.set i
              { p with
                cards := p.cards ++ [c],
                score := calculateScore (p.cards ++ [c]),
                actions :=
                  if 21 < calculateScore (p.cards ++ [c])
                  then (p.actions ++ ["hit"]) ++ ["bust"]
                  else p.actions ++ ["hit"] },
            currentPlayerIndex :=
              if 21 < calculateScore (p.cards ++ [c])
              then s.currentPlayerIndex + 1
              else s.currentPlayerIndex } :=
  handlePlayerHit_found hfind hp hc

/-- Witness for C2: seat 1 hits at `exDecisionState`. -/
theorem claim_C2_witness :
    exDecisionState.phase = 3 ∧
    exDecisionState.players.findIdx? (fun q => q.id == "player-1") = some 0 ∧
    (0 : Nat) = exDecisionState.currentPlayerIndex ∧
    exDecisionState.players[0]? = some exPlayer1 ∧
    exDecisionState.deck.getLast? = some exCard ∧
    handlePlayerHit "player-1" exDecisionState =
      .ok { exDecisionState with
            deck := exDecisionState.deck.dropLast,
            players := exDecisionState.players.set 0
              { exPlayer1 with
                cards := exPlayer1.cards ++ [exCard],
                score := calculateScore (exPlayer1.cards ++ [exCard]),
                actions :=
                  if 21 < calculateScore (exPlayer1.cards ++ [exCard])
                  then (exPlayer1.actions ++ ["hit"]) ++ ["bust"]
                  else exPlayer1.actions ++ ["hit"] },
            currentPlayerIndex :=
              if 21 < calculateScore (exPlayer1.cards ++ [exCard])
              then exDecisionState.currentPlayerIndex + 1
              else exDecisionState.currentPlayerIndex } :=
  ⟨by decide, by decide, by decide, by decide, by decide,
   claim_C2_hit_at_cursor exDecisionState "player-1" 0 exPlayer1 exCard
     (by decide) (by decide) (by decide) (by decide) (by decide)⟩

/-- C8: in the Decisions phase a double by the seat at the cursor exactly
doubles that seat's pre-call bet, pops exactly one card, appends it,
recomputes the score, appends `"hit"` to the actionLog (plus `"bust"` when
the score exceeds 21 — the source records Busted only as that actionLog
tag), and always advances the cursor by exactly one, bust or not. -/
theorem claim_C8_double_at_cursor (s : GameState) (pid : String) (i : Nat)
    (p : Player) (c : Card)
    (_hphase : s.phase = 3)
    (hfind : s.players.findIdx? (fun q => q.id == pid) = some i)
    (_hcursor : i = s.currentPlayerIndex)
    (hp : s.players[i]? = some p)
    (hc : s.deck.getLast? = some c) :
    handlePlayerDouble pid s =
      .ok { s with
            deck := s.deck.dropLast,
            players := s.players.set i
              { p with
                bet := p.bet * 2,
                cards := p.cards ++ [c],
                score := calculateScore (p.cards ++ [c]),
                actions :=
                  if 21 < calculateScore (p.cards ++ [c])
                  then (p.actions ++ ["hit"]) ++ ["bust"]
                  else p.actions ++ ["hit"] },
            currentPlayerIndex := s.currentPlayerIndex + 1 } :=
  handlePlayerDouble_found hfind hp hc

/-- Witness for C8: seat 1 doubles at `exDecisionState`. -/
theorem claim_C8_witness :
    exDecisionState.phase = 3 ∧
    exDecisionState.players.findIdx? (fun q => q.id == "player-1") = some 0 ∧
    (0 : Nat) = exDecisionState.currentPlayerIndex ∧
    exDecisionState.players[0]? = some exPlayer1 ∧
    exDecisionState.deck.getLast? = some exCard ∧
    handlePlayerDouble "player-1" exDecisionState =
      .ok { exDecisionState with
            deck := exDecisionState.deck.dropLast,
            players := exDecisionState.players.set 0
              { exPlayer1 with
                bet := exPlayer1.bet * 2,
                cards := exPlayer1.cards ++ [exCard],
                score := calculateScore (exPlayer1.cards ++ [exCard]),
                actions :=
                  if 21 < calculateScore (exPlayer1.cards ++ [exCard])
                  then (exPlayer1.actions ++ ["hit"]) ++ ["bust"]
                  else exPlayer1.actions ++ ["hit"] },
            currentPlayerIndex := exDecisionState.currentPlayerIndex + 1 } :=
  ⟨by decide, by decide, by decide, by decide, by decide,
   claim_C8_double_at_cursor exDecisionState "player-1" 0 exPlayer1 exCard
     (by decide) (by decide) (by decide) (by decide) (by decide)⟩

/-- C10: a playerId matching none of the seats makes every one of
`submitBet`, `hit`, `stand` and `double` return immediately with the whole
state — players, dealer, shoe, phase and both cursors — unchanged. -/
theorem claim_C10_unknown_id_noop (s : GameState) (pid : String)
    (rand : Nat → Nat) (amt : String)
    (h : ∀ p ∈ s.players, p.id ≠ pid) :
    handleSubmitBet rand pid amt s = s ∧
    handlePlayerHit pid s = .ok s ∧
    handlePlayerStand pid s = s ∧
    handlePlayerDouble pid s = .ok s :=
  have hn := findIdx?_id_none h
  ⟨handleSubmitBet_not_found rand amt hn, handlePlayerHit_not_found hn,
   handlePlayerStand_not_found hn, handlePlayerDouble_not_found hn⟩

/-- Witness for C10 at `initialState` with the unknown id `"ghost"`. -/
theorem claim_C10_witness :
    (∀ p ∈ initialState.players, p.id ≠ "ghost") ∧
    (handleSubmitBet rand0 "ghost" "10" initialState = initialState ∧
     handlePlayerHit "ghost" initialState = .ok initialState ∧
     handlePlayerStand "ghost" initialState = initialState ∧
     handlePlayerDouble "ghost" initialState = .ok initialState) :=
  ⟨by decide,
   claim_C10_unknown_id_noop initialState "ghost" rand0 "10" (by decide)⟩

/-- C1 counterexample: the claim says an intent addressed to a seat not at
the active cursor has no effect, but at `initialState` (Betting phase,
cursor 0) a bet submitted for seat 3 is stored and advances the cursor,
and at `exDecisionState` (Decisions phase, cursor 0) a hit by seat 2
changes the state as well. -/
theorem claim_C1_counterexample :
    handleSubmitBet rand0 "player-3" "25" initialState ≠ initialState ∧
    (handleSubmitBet rand0 "player-3" "25" initialState).bettingIndex = 1 ∧
    ((handleSubmitBet rand0 "player-3" "25" initialState).players[2]?.map
      Player.bet) = some 25 ∧
    handlePlayerHit "player-2" exDecisionState ≠ .ok exDecisionState :=
  ⟨by decide, by decide, by decide, by decide⟩

/-- C1 amended: the handlers never validate the cursor.  An intent
addressed to any existing seat id is processed in full even when that seat
is not at the active cursor: `submitBet` stores the (coerced) bet and
advances the betting cursor, and `hit`/`stand`/`double` draw/log and move
the decisions cursor exactly as they would for the seat at the cursor.
Only an id matching no seat is ignored. -/
theorem claim_C1_amended (rand : Nat → Nat) (s : GameState)
    (pid amt : String) (i : Nat) (p : Player) (c : Card)
    (hfind : s.players.findIdx? (fun q => q.id == pid) = some i)
    (hp : s.players[i]? = some p)
    (_hbetcur : i ≠ s.bettingIndex)
    (_hdeccur : i ≠ s.currentPlayerIndex)
    (hlt : s.bettingIndex < 7)
    (hc : s.deck.getLast? = some c) :
    handleSubmitBet rand pid amt s =
      { s with
        players := s.players.set i
          { p with
            bet := if 0 < jsParseIntOr0 amt then jsParseIntOr0 amt else 5 },
        bettingIndex := s.bettingIndex + 1 } ∧
    handlePlayerHit pid s =
      .ok { s with
            deck := s.deck.dropLast,
            players := s.players.set i
              { p with
                cards := p.cards ++ [c],
                score := calculateScore (p.cards ++ [c]),
                actions :=
                  if 21 < calculateScore (p.cards ++ [c])
                  then (p.actions ++ ["hit"]) ++ ["bust"]
                  else p.actions ++ ["hit"] },
            currentPlayerIndex :=
              if 21 < calculateScore (p.cards ++ [c])
              then s.currentPlayerIndex + 1
              else s.currentPlayerIndex } ∧
    handlePlayerStand pid s =
      { s with
        players := s.players.set i
          { p with actions := p.actions ++ ["stand"] },
        currentPlayerIndex := s.currentPlayerIndex + 1 } ∧
    handlePlayerDouble pid s =
      .ok { s with
            deck := s.deck.dropLast,
            players := s.players.set i
              { p with
                bet := p.bet * 2,
                cards := p.cards ++ [c],
                score := calculateScore (p.cards ++ [c]),
                actions :=
                  if 21 < calculateScore (p.cards ++ [c])
                  then (p.actions ++ ["hit"]) ++ ["bust"]
                  else p.actions ++ ["hit"] },
            currentPlayerIndex := s.currentPlayerIndex + 1 } :=
  ⟨handleSubmitBet_found_lt rand amt hfind hp hlt,
   handlePlayerHit_found hfind hp hc,
   handlePlayerStand_found hfind hp,
   handlePlayerDouble_found hfind hp hc⟩

/-- Witness for C1 (amended) at `exOffCursorState` with seat 3, which is
not at either cursor (both cursors are 0). -/
theorem claim_C1_amended_witness :
    exOffCursorState.players.findIdx? (fun q => q.id == "player-3") =
      some 2 ∧
    exOffCursorState.players[2]? = some exPlayer3 ∧
    (2 : Nat) ≠ exOffCursorState.bettingIndex ∧
    (2 : Nat) ≠ exOffCursorState.currentPlayerIndex ∧
    exOffCursorState.bettingIndex < 7 ∧
    exOffCursorState.deck.getLast? = some exCard ∧
    (handleSubmitBet rand0 "player-3" "25" exOffCursorState =
      { exOffCursorState with
        players := exOffCursorState.players.set 2
          { exPlayer3 with
            bet := if 0 < jsParseIntOr0 "25" then jsParseIntOr0 "25" else 5 },
        bettingIndex := exOffCursorState.bettingIndex + 1 } ∧
    handlePlayerHit "player-3" exOffCursorState =
      .ok { exOffCursorState with
            deck := exOffCursorState.deck.dropLast,
            players := exOffCursorState.players.set 2
              { exPlayer3 with
                cards := exPlayer3.cards ++ [exCard],
                score := calculateScore (exPlayer3.cards ++ [exCard]),
                actions :=
                  if 21 < calculateScore (exPlayer3.cards ++ [exCard])
                  then (exPlayer3.actions ++ ["hit"]) ++ ["bust"]
                  else exPlayer3.actions ++ ["hit"] },
            currentPlayerIndex :=
              if 21 < calculateScore (exPlayer3.cards ++ [exCard])
              then exOffCursorState.currentPlayerIndex + 1
              else exOffCursorState.currentPlayerIndex } ∧
    handlePlayerStand "player-3" exOffCursorState =
      { exOffCursorState with
        players := exOffCursorState.players.set 2
          { exPlayer3 with actions := exPlayer3.actions ++ ["stand"] },
        currentPlayerIndex := exOffCursorState.currentPlayerIndex + 1 } ∧
    handlePlayerDouble "player-3" exOffCursorState =
      .ok { exOffCursorState with
            deck := exOffCursorState.deck.dropLast,
            players := exOffCursorState.players.set 2
              { exPlayer3 with
                bet := exPlayer3.bet * 2,
                cards := exPlayer3.cards ++ [exCard],
                score := calculateScore (exPlayer3.cards ++ [exCard]),
                actions :=
                  if 21 < calculateScore (exPlayer3.cards ++ [exCard])
                  then (exPlayer3.actions ++ ["hit"]) ++ ["bust"]
                  else exPlayer3.actions ++ ["hit"] },
            currentPlayerIndex :=
              exOffCursorState.currentPlayerIndex + 1 }) :=
  ⟨by decide, by decide, by decide, by decide, by decide, by decide,
   claim_C1_amended rand0 exOffCursorState "player-3" "25" 2 exPlayer3
     exCard (by decide) (by decide) (by decide) (by decide) (by decide)
     (by decide)⟩

/-- C3 counterexample: at `exEmptyDeckState` (Decisions phase, exhausted
shoe) a hit by seat 1 does not fail with the spec's checked
`ShoeEmptyError`; the handler throws an unchecked `TypeError` instead. -/
theorem claim_C3_counterexample :
    handlePlayerHit "player-1" exEmptyDeckState = .error .typeError ∧
    handlePlayerHit "player-1" exEmptyDeckState ≠
      .error JsError.shoeEmpty :=
  ⟨by decide, by decide⟩

/-- C3 amended: the code performs no empty-shoe check and defines no
`ShoeEmptyError`.  On an exhausted shoe, `deck.pop()` yields `undefined`,
the `undefined` card is appended to the local hand copy, and
`calculateScore` throws an uncaught `TypeError` (modelled as
`Except.error .typeError`) during hit, double, or a mid-order deal tick;
the thrown exception aborts the handler, so no committed state holds an
undefined card. -/
theorem claim_C3_amended (s : GameState) (pid : String) (i : Nat)
    (p : Player)
    (hfind : s.players.findIdx? (fun q => q.id == pid) = some i)
    (hp : s.players[i]? = some p)
    (hd : s.deck = [])
    (hdi : s.dealIndex < dealOrder.length) :
    handlePlayerHit pid s = .error .typeError ∧
    handlePlayerDouble pid s = .error .typeError ∧
    dealNextCard s = .error .typeError :=
  ⟨handlePlayerHit_empty hfind hp hd,
   handlePlayerDouble_empty hfind hp hd,
   dealNextCard_empty hdi hd⟩

/-- Witness for C3 (amended) at `exEmptyDeckState`. -/
theorem claim_C3_witness :
    exEmptyDeckState.players.findIdx? (fun q => q.id == "player-1") =
      some 0 ∧
    exEmptyDeckState.players[0]? = some exPlayer1 ∧
    exEmptyDeckState.deck = [] ∧
    exEmptyDeckState.dealIndex < dealOrder.length ∧
    (handlePlayerHit "player-1" exEmptyDeckState = .error .typeError ∧
     handlePlayerDouble "player-1" exEmptyDeckState = .error .typeError ∧
     dealNextCard exEmptyDeckState = .error .typeError) :=
  ⟨by decide, by decide, by decide, by decide,
   claim_C3_amended exEmptyDeckState "player-1" 0 exPlayer1 (by decide)
     (by decide) (by decide) (by decide)⟩

/-- C4 counterexample: the claim requires restart to install a freshly
built and shuffled shoe, but `initializeGame` sets the deck to the empty
array: after a restart from phase 3 the deck has 0 cards, not the 312 of
a freshly built 6-deck shoe. -/
theorem claim_C4_counterexample :
    (handleRestart { initialState with phase := 3 }).deck.length ≠
      (shuffleDeck (generateShoe 6) rand0).length := by
  rw [shuffleDeck_length]
  decide

/-- C4 amended: from every state, restart returns to the Betting phase
with both cursors and the deal cursor at 0, every seat's hand empty,
every score 0, every bet cleared to the initial default 0, the dealer
cleared, and the shoe cleared to the empty list — a fresh shoe is only
built later, at the Betting → Dealing transition. -/
theorem claim_C4_restart (s : GameState) :
    handleRestart s = initialState ∧
    initialState.phase = 1 ∧
    initialState.bettingIndex = 0 ∧
    initialState.currentPlayerIndex = 0 ∧
    initialState.dealIndex = 0 ∧
    (∀ p ∈ initialState.players,
      p.cards = [] ∧ p.score = 0 ∧ p.bet = 0 ∧ p.actions = []) ∧
    initialState.dealer.cards = [] ∧
    initialState.dealer.score = 0 ∧
    initialState.deck = [] :=
  ⟨rfl, rfl, rfl, rfl, rfl, by decide, rfl, rfl, rfl⟩

/-- C5 counterexample: running the eight bet submissions of `submit8`
(each seat submits `"10"` in cursor order) does reach the Dealing phase,
but the 8th seat's just-submitted bet does not survive: it is reverted to
its prior value 0, unlike the earlier seats' bets. -/
theorem claim_C5_counterexample :
    submit8.phase = 2 ∧
    (submit8.players[7]?.map Player.bet) = some 0 ∧
    (submit8.players[7]?.map Player.bet) ≠ some 10 ∧
    (submit8.players[0]?.map Player.bet) = some 10 :=
  ⟨by decide, by decide, by decide, by decide⟩

/-- C5 amended: once the snapshot betting cursor is ≥ 7, a valid bet
submission automatically transitions to Dealing: a fresh 6-deck shoe is
built and shuffled, every seat's hand/score/actionLog and the dealer are
cleared, the betting cursor advances, and the seats revert to the
pre-submission snapshot — so the first seven submitted bets persist while
the 8th, just-submitted bet is lost (overwritten by `goToPhase2`'s stale
`setPlayers`).  The deal cursor is not written at all (it is unchanged;
in a normal round it is already 0). -/
theorem claim_C5_amended (rand : Nat → Nat) (s : GameState)
    (pid amt : String) (i : Nat)
    (hfind : s.players.findIdx? (fun q => q.id == pid) = some i)
    (hge : 7 ≤ s.bettingIndex) :
    handleSubmitBet rand pid amt s =
      { s with
        deck := shuffleDeck (generateShoe 6) rand,
        players := s.players.map fun p =>
          { p with cards := [], score := 0, actions := [] },
        dealer := { s.dealer with cards := [], score := 0 },
        phase := 2,
        bettingIndex := s.bettingIndex + 1 } :=
  handleSubmitBet_found_ge rand amt hfind hge

/-- Witness for C5 (amended) at `exBetFullState` (betting cursor 7),
seat 8 submitting `"10"`. -/
theorem claim_C5_witness :
    exBetFullState.players.findIdx? (fun q => q.id == "player-8") =
      some 7 ∧
    7 ≤ exBetFullState.bettingIndex ∧
    handleSubmitBet rand0 "player-8" "10" exBetFullState =
      { exBetFullState with
        deck := shuffleDeck (generateShoe 6) rand0,
        players := exBetFullState.players.map fun p =>
          { p with cards := [], score := 0, actions := [] },
        dealer := { exBetFullState.dealer with cards := [], score := 0 },
        phase := 2,
        bettingIndex := exBetFullState.bettingIndex + 1 } :=
  ⟨by decide, by decide,
   claim_C5_amended rand0 exBetFullState "player-8" "10" 7 (by decide)
     (by decide)⟩

/-- C7: from any Dealing-phase state with the deal cursor at 0, all 8
seats and the dealer empty-handed, and at least 17 cards in the shoe,
running the dealing loop to the end of the fixed order (17 dealing ticks
plus the closing tick) succeeds, draws exactly 17 cards from the shoe,
leaves every one of the 8 seats with exactly 2 cards and the dealer with
exactly 1 card, and moves to the Decisions phase with the active-seat
cursor at 0 and automatic dealing stopped. -/
theorem claim_C7_initial_deal (s : GameState)
    (_hphase : s.phase = 2)
    (hdi : s.dealIndex = 0)
    (hlen : s.players.length = 8)
    (hhands : ∀ p ∈ s.players, p.cards = [])
    (hdealer : s.dealer.cards = [])
    (hdeck : 17 ≤ s.deck.length)
    (hcur : s.currentPlayerIndex = 0) :
    ∃ s', iterateDeal 18 s = .ok s' ∧
      s'.phase = 3 ∧
      s'.deck.length + 17 = s.deck.length ∧
      s'.players.length = 8 ∧
      (∀ p ∈ s'.players, p.cards.length = 2) ∧
      s'.dealer.cards.length = 1 ∧
      s'.currentPlayerIndex = 0 ∧
      s'.isDealing = false := by
  have hlen17 : dealOrder.length = 17 := rfl
  obtain ⟨t, ht, htdi, htdeck, htphase, htcpi, htdeal, htlen, hthands,
    htdealer⟩ := iterateDeal_inv 17 (by omega) s hdi hlen (by omega)
  have hzero : ∀ j, j < 8 → handCount s j = 0 := by
    intro j hj
    have hjlen : j < s.players.length := by omega
    have hmem : s.players[j] ∈ s.players := List.getElem_mem hjlen
    simp [handCount, List.getElem?_eq_getElem hjlen, hhands _ hmem]
  have hstop : dealNextCard t =
      .ok { t with isDealing := false, phase := 3 } :=
    dealNextCard_finish (by omega)
  have hrun : iterateDeal 18 s =
      .ok { t with isDealing := false, phase := 3 } := by
    show iterateDeal (17 + 1) s = _
    rw [iterateDeal, ht]
    exact hstop
  have htake : dealOrder.take 17 = dealOrder := rfl
  have hcnt : ∀ j, j < 8 →
      dealOrder.count (DealTarget.seat j) = 2 := by decide
  refine ⟨_, hrun, rfl, htdeck, htlen, ?_, ?_, ?_, rfl⟩
  · intro p hp
    rw [List.mem_iff_getElem] at hp
    obtain ⟨j, hj, rfl⟩ := hp
    have hj' : j < t.players.length := hj
    have hj8 : j < 8 := by omega
    have hcards : t.players[j].cards.length = 2 := by
      have := hthands j hj8
      rw [hzero j hj8, htake, hcnt j hj8] at this
      simpa [handCount, List.getElem?_eq_getElem hj'] using this
    exact hcards
  · have hcntd : dealOrder.count DealTarget.dealer = 1 := by decide
    have hde : t.dealer.cards.length =
        s.dealer.cards.length + dealOrder.count DealTarget.dealer := by
      rw [htdealer, htake]
    rw [hdealer, hcntd] at hde
    simpa using hde
  · rw [htcpi, hcur]

/-- Witness for C7 at `exDealState` (phase 2, deal cursor 0, a 52-card
single deck as the shoe, all hands empty). -/
theorem claim_C7_witness :
    exDealState.phase = 2 ∧
    exDealState.dealIndex = 0 ∧
    exDealState.players.length = 8 ∧
    (∀ p ∈ exDealState.players, p.cards = []) ∧
    exDealState.dealer.cards = [] ∧
    17 ≤ exDealState.deck.length ∧
    exDealState.currentPlayerIndex = 0 ∧
    (∃ s', iterateDeal 18 exDealState = .ok s' ∧
      s'.phase = 3 ∧
      s'.deck.length + 17 = exDealState.deck.length ∧
      s'.players.length = 8 ∧
      (∀ p ∈ s'.players, p.cards.length = 2) ∧
      s'.dealer.cards.length = 1 ∧
      s'.currentPlayerIndex = 0 ∧
      s'.isDealing = false) :=
  ⟨by decide, by decide, by decide, by decide, by decide, by decide,
   by decide,
   claim_C7_initial_deal exDealState (by decide) (by decide) (by decide)
     (by decide) (by decide) (by decide) (by decide)⟩

end Blackjack
